import Mathlib

set_option maxRecDepth 1000000

/-!
Verification development for the libfixkalman gravity example.

The repository ships the driver `example_gravity.c`; the Kalman filter core
(predict / predict-tuned / correct, initialization with dimension guards) and
the fixed-point scalar and fixed-size matrix collaborators are specified in
`spec.md` but their sources are not part of this tree.  Definitions below that
embed the driver are translated directly from `example_gravity.c`; the
remaining operations carry a doc comment starting with "Modelled from the
spec:" and follow the spec's wording.

Fixed-point scalars are Q16.16 values carried as `Int` (raw value = real value
times 2^16), with explicit saturation at the 32-bit signed bounds as the
spec's scalar contract requires ("deterministic rounding on multiply/divide,
saturating on overflow").
-/

/-- Modelled from the spec: the Q16.16 fixed-point unit, raw value 2^16
(the libfixmath collaborator's fix16_one). -/
def fix16_one : Int := 65536

/-- Modelled from the spec: largest representable raw fixed-point value
(32-bit signed saturation bound). -/
def fix16_maximum : Int := 2147483647

/-- Modelled from the spec: smallest representable raw fixed-point value
(32-bit signed saturation bound). -/
def fix16_minimum : Int := -2147483648

/-- Modelled from the spec: saturate a raw value into the representable
32-bit signed range ("saturating on overflow"). -/
def fix16_sat (v : Int) : Int := max fix16_minimum (min fix16_maximum v)

/-- Modelled from the spec: saturating fixed-point addition. -/
def fix16_add (a b : Int) : Int := fix16_sat (a + b)

/-- Modelled from the spec: saturating fixed-point subtraction. -/
def fix16_sub (a b : Int) : Int := fix16_sat (a - b)

/-- Modelled from the spec: fixed-point multiplication with deterministic
round-to-nearest of the 32.32 product (half rounds up), then saturation. -/
def fix16_mul (a b : Int) : Int := fix16_sat (Int.fdiv (a * b + 32768) 65536)

/-- Modelled from the spec: fixed-point division with deterministic
round-to-nearest quotient, then saturation; division by zero yields zero
(never reached on the paths verified here). -/
def fix16_div (a b : Int) : Int :=
  if 0 < b then fix16_sat (Int.fdiv (2 * (a * 65536) + b) (2 * b))
  else if b < 0 then fix16_sat (Int.fdiv (-(2 * (a * 65536)) + -b) (2 * -b))
  else 0

/-- Fixed-point square, as used by the driver (fix16_sq). -/
def fix16_sq (a : Int) : Int := fix16_mul a a

/-- Modelled from the spec: the F16 constant-conversion macro of the
fixed-point collaborator applied to the exact decimal constant num/den:
multiply by 2^16, add a half away from zero, truncate toward zero (round
half away from zero). -/
def F16 (num : Int) (den : Nat) : Int :=
  if 0 ≤ num then Int.fdiv (2 * num * 65536 + den) (2 * den)
  else -(Int.fdiv (2 * (-num) * 65536 + den) (2 * den))

/-- Modelled from the spec: conversion from a (floating) constant num/den to
the raw fixed-point representation; identical rounding to the F16 macro for
the exact constants used in this program. -/
def fix16_from_float (num : Int) (den : Nat) : Int := F16 num den

/-- Modelled from the spec: single-rounding dot product of two length-3
fixed-point vectors, as provided by the fixed-size matrix collaborator
(accumulate full-precision products, round once, saturate). -/
def fix16_dot3 (a0 a1 a2 b0 b1 b2 : Int) : Int :=
  fix16_sat (Int.fdiv (a0 * b0 + a1 * b1 + a2 * b2 + 32768) 65536)

/-- A 3-entry fixed-point column (or row) vector: the logical 3x1 slice of the
mf16 fixed-size matrix container. -/
structure mf16vec where
  d0 : Int
  d1 : Int
  d2 : Int
deriving DecidableEq, Repr

/-- A 3x3 fixed-point matrix: the logical 3x3 slice of the mf16 fixed-size
matrix container. -/
structure mf16mat where
  d00 : Int
  d01 : Int
  d02 : Int
  d10 : Int
  d11 : Int
  d12 : Int
  d20 : Int
  d21 : Int
  d22 : Int
deriving DecidableEq, Repr

/-- The all-zero vector. -/
def mf16vec_zero : mf16vec := ⟨0, 0, 0⟩

/-- The all-zero matrix. -/
def mf16mat_zero : mf16mat := ⟨0, 0, 0, 0, 0, 0, 0, 0, 0⟩

/-- Read entry (r, c) of a 3x3 matrix. -/
def mf16mat.get (m : mf16mat) (r c : Fin 3) : Int :=
  match r, c with
  | 0, 0 => m.d00
  | 0, 1 => m.d01
  | 0, 2 => m.d02
  | 1, 0 => m.d10
  | 1, 1 => m.d11
  | 1, 2 => m.d12
  | 2, 0 => m.d20
  | 2, 1 => m.d21
  | 2, 2 => m.d22

/-- The matrix_set macro of example_gravity.c, on a 3x3 matrix: write one
entry. -/
def matrix_set (m : mf16mat) (r c : Fin 3) (v : Int) : mf16mat :=
  match r, c with
  | 0, 0 => { m with d00 := v }
  | 0, 1 => { m with d01 := v }
  | 0, 2 => { m with d02 := v }
  | 1, 0 => { m with d10 := v }
  | 1, 1 => { m with d11 := v }
  | 1, 2 => { m with d12 := v }
  | 2, 0 => { m with d20 := v }
  | 2, 1 => { m with d21 := v }
  | 2, 2 => { m with d22 := v }

/-- The matrix_set_symmetric macro of example_gravity.c: write the entry and
its mirror with the same value. -/
def matrix_set_symmetric (m : mf16mat) (r c : Fin 3) (v : Int) : mf16mat :=
  matrix_set (matrix_set m r c v) c r v

/-- The matrix_set macro applied to a 3-entry vector slice (row or column). -/
def vector_set (x : mf16vec) (i : Fin 3) (v : Int) : mf16vec :=
  match i with
  | 0 => { x with d0 := v }
  | 1 => { x with d1 := v }
  | 2 => { x with d2 := v }

/-- Symmetry of a 3x3 matrix: every entry equals its mirror. -/
def mf16mat.symmetric (m : mf16mat) : Prop :=
  m.d01 = m.d10 ∧ m.d02 = m.d20 ∧ m.d12 = m.d21

instance (m : mf16mat) : Decidable m.symmetric := by
  unfold mf16mat.symmetric; infer_instance

/-- The kalman_t filter instance specialised to the gravity example's
dimensions (3 states, 0 inputs): state vector x, state-transition matrix A,
system covariance P. -/
structure kalman_t where
  x : mf16vec
  A : mf16mat
  P : mf16mat
deriving DecidableEq, Repr

/-- The kalman_measurement_t instance specialised to the gravity example's
dimensions (3 states, 1 measurement): measurement vector z (1x1),
measurement transformation H (1x3, stored as a row), measurement noise
covariance R (1x1). -/
structure kalman_measurement_t where
  z : Int
  H : mf16vec
  R : Int
deriving DecidableEq, Repr

/-- The error taxonomy of the spec. -/
inductive kalman_error where
  | DimensionError : kalman_error
  | SingularInnovationError : kalman_error
deriving DecidableEq, Repr

/-- Modelled from the spec: kalman_filter_initialize of the core — fails with
DimensionError when the requested state or input count exceeds the
compile-time maximum (FIXMATRIX_MAX_SIZE), performing no mutation of the
caller's buffers; otherwise zeroes all matrices. -/
def kalman_filter_initialise (maxSize n m : Nat) (kf : kalman_t) :
    kalman_t × Option kalman_error :=
  if maxSize < n ∨ maxSize < m then (kf, some kalman_error.DimensionError)
  else ({ x := mf16vec_zero, A := mf16mat_zero, P := mf16mat_zero }, none)

/-- Modelled from the spec: kalman_measurement_initialize of the core — fails with
DimensionError when the requested state or measurement count exceeds the
compile-time maximum, performing no mutation of the caller's buffers;
otherwise zeroes all matrices. -/
def kalman_measurement_initialise (maxSize n k : Nat) (kfm : kalman_measurement_t) :
    kalman_measurement_t × Option kalman_error :=
  if maxSize < n ∨ maxSize < k then (kfm, some kalman_error.DimensionError)
  else ({ z := 0, H := mf16vec_zero, R := 0 }, none)

/-- KALMAN_NUM_STATES of example_gravity.c. -/
def KALMAN_NUM_STATES : Nat := 3

/-- KALMAN_NUM_INPUTS of example_gravity.c. -/
def KALMAN_NUM_INPUTS : Nat := 0

/-- KALMAN_NUM_MEASUREMENTS of example_gravity.c. -/
def KALMAN_NUM_MEASUREMENTS : Nat := 1

/-- kalman_gravity_init of example_gravity.c, parameterised by the build's
FIXMATRIX_MAX_SIZE: initialize both structures, then set the initial state,
the state transition for T = 1, the covariance (through mirrored symmetric
writes), the measurement transformation and the measurement noise. -/
def kalman_gravity_init (maxSize : Nat) (kf : kalman_t) (kfm : kalman_measurement_t) :
    kalman_t × kalman_measurement_t :=
  let kf := (kalman_filter_initialise maxSize KALMAN_NUM_STATES KALMAN_NUM_INPUTS kf).1
  let kfm := (kalman_measurement_initialise maxSize KALMAN_NUM_STATES KALMAN_NUM_MEASUREMENTS kfm).1
  -- set initial state
  let x := vector_set (vector_set (vector_set kf.x 0 0) 1 0) 2 (fix16_from_float 6 1)
  -- set state transition, time constant T = 1
  let T : Int := fix16_one
  let Tsquare := fix16_sq T
  let fix16_half := fix16_from_float 1 2
  let A := matrix_set kf.A 0 0 fix16_one
  let A := matrix_set A 0 1 T
  let A := matrix_set A 0 2 (fix16_mul fix16_half Tsquare)
  let A := matrix_set A 1 0 0
  let A := matrix_set A 1 1 fix16_one
  let A := matrix_set A 1 2 T
  let A := matrix_set A 2 0 0
  let A := matrix_set A 2 1 0
  let A := matrix_set A 2 2 fix16_one
  -- set covariance
  let P := matrix_set_symmetric kf.P 0 0 fix16_half
  let P := matrix_set_symmetric P 0 1 0
  let P := matrix_set_symmetric P 0 2 0
  let P := matrix_set_symmetric P 1 1 fix16_one
  let P := matrix_set_symmetric P 1 2 0
  let P := matrix_set_symmetric P 2 2 fix16_one
  -- set measurement transformation
  let H := vector_set (vector_set (vector_set kfm.H 0 fix16_one) 1 0) 2 0
  -- set process noise
  let R := fix16_half
  ({ x := x, A := A, P := P }, { kfm with H := H, R := R })

/-- Modelled from the spec: kalman_predict — x becomes A*x (no control
inputs here), P becomes A*P*A^T, computed with the matrix collaborator's
multiply and transpose-multiply primitives; in-place mutation of x and P
only. -/
def kalman_predict (kf : kalman_t) : kalman_t :=
  let A := kf.A
  let x := kf.x
  let P := kf.P
  -- x = A * x
  let x1 : mf16vec :=
    { d0 := fix16_dot3 A.d00 A.d01 A.d02 x.d0 x.d1 x.d2
      d1 := fix16_dot3 A.d10 A.d11 A.d12 x.d0 x.d1 x.d2
      d2 := fix16_dot3 A.d20 A.d21 A.d22 x.d0 x.d1 x.d2 }
  -- temp = A * P
  let t00 := fix16_dot3 A.d00 A.d01 A.d02 P.d00 P.d10 P.d20
  let t01 := fix16_dot3 A.d00 A.d01 A.d02 P.d01 P.d11 P.d21
  let t02 := fix16_dot3 A.d00 A.d01 A.d02 P.d02 P.d12 P.d22
  let t10 := fix16_dot3 A.d10 A.d11 A.d12 P.d00 P.d10 P.d20
  let t11 := fix16_dot3 A.d10 A.d11 A.d12 P.d01 P.d11 P.d21
  let t12 := fix16_dot3 A.d10 A.d11 A.d12 P.d02 P.d12 P.d22
  let t20 := fix16_dot3 A.d20 A.d21 A.d22 P.d00 P.d10 P.d20
  let t21 := fix16_dot3 A.d20 A.d21 A.d22 P.d01 P.d11 P.d21
  let t22 := fix16_dot3 A.d20 A.d21 A.d22 P.d02 P.d12 P.d22
  -- P = temp * A^T
  let P1 : mf16mat :=
    { d00 := fix16_dot3 t00 t01 t02 A.d00 A.d01 A.d02
      d01 := fix16_dot3 t00 t01 t02 A.d10 A.d11 A.d12
      d02 := fix16_dot3 t00 t01 t02 A.d20 A.d21 A.d22
      d10 := fix16_dot3 t10 t11 t12 A.d00 A.d01 A.d02
      d11 := fix16_dot3 t10 t11 t12 A.d10 A.d11 A.d12
      d12 := fix16_dot3 t10 t11 t12 A.d20 A.d21 A.d22
      d20 := fix16_dot3 t20 t21 t22 A.d00 A.d01 A.d02
      d21 := fix16_dot3 t20 t21 t22 A.d10 A.d11 A.d12
      d22 := fix16_dot3 t20 t21 t22 A.d20 A.d21 A.d22 }
  { kf with x := x1, P := P1 }

/-- Modelled from the spec: kalman_predict_tuned — identical state
propagation to kalman_predict, but the propagated covariance is inflated by
1/lambda^2 (fading memory); lambda = fix16_one reduces to plain predict. -/
def kalman_predict_tuned (kf : kalman_t) (lambda : Int) : kalman_t :=
  let kfp := kalman_predict kf
  let invLambdaSq := fix16_div fix16_one (fix16_sq lambda)
  let P := kfp.P
  let P2 : mf16mat :=
    { d00 := fix16_mul P.d00 invLambdaSq
      d01 := fix16_mul P.d01 invLambdaSq
      d02 := fix16_mul P.d02 invLambdaSq
      d10 := fix16_mul P.d10 invLambdaSq
      d11 := fix16_mul P.d11 invLambdaSq
      d12 := fix16_mul P.d12 invLambdaSq
      d20 := fix16_mul P.d20 invLambdaSq
      d21 := fix16_mul P.d21 invLambdaSq
      d22 := fix16_mul P.d22 invLambdaSq }
  { kfp with P := P2 }

/-- Modelled from the spec: the 1x3 row H*P used both in the innovation
covariance and in the covariance update of Correct. -/
def kalman_HP (kf : kalman_t) (kfm : kalman_measurement_t) : mf16vec :=
  { d0 := fix16_dot3 kfm.H.d0 kfm.H.d1 kfm.H.d2 kf.P.d00 kf.P.d10 kf.P.d20
    d1 := fix16_dot3 kfm.H.d0 kfm.H.d1 kfm.H.d2 kf.P.d01 kf.P.d11 kf.P.d21
    d2 := fix16_dot3 kfm.H.d0 kfm.H.d1 kfm.H.d2 kf.P.d02 kf.P.d12 kf.P.d22 }

/-- Modelled from the spec: the 1x1 innovation covariance S = H*P*H^T + R
computed in Correct. -/
def kalman_S (kf : kalman_t) (kfm : kalman_measurement_t) : Int :=
  let hp := kalman_HP kf kfm
  fix16_add (fix16_dot3 hp.d0 hp.d1 hp.d2 kfm.H.d0 kfm.H.d1 kfm.H.d2) kfm.R

/-- Modelled from the spec: kalman_correct — one measurement-update cycle:
S = H*P*H^T + R; if S is not invertible the call fails with
SingularInnovationError and x and P are left unmodified; otherwise
K = P*H^T*S^-1 (stable solve: here S is 1x1, a rounded division),
y = z - H*x, x becomes x + K*y and P becomes P - K*(H*P) with the lower
triangle written as a mirror of the upper to re-enforce symmetry. -/
def kalman_correct (kf : kalman_t) (kfm : kalman_measurement_t) :
    kalman_t × Option kalman_error :=
  let hp := kalman_HP kf kfm
  let S := kalman_S kf kfm
  if S = 0 then (kf, some kalman_error.SingularInnovationError)
  else
    let H := kfm.H
    let P := kf.P
    let x := kf.x
    -- y = z - H*x
    let y := fix16_sub kfm.z (fix16_dot3 H.d0 H.d1 H.d2 x.d0 x.d1 x.d2)
    -- K = P*H^T * S^-1
    let pht0 := fix16_dot3 P.d00 P.d01 P.d02 H.d0 H.d1 H.d2
    let pht1 := fix16_dot3 P.d10 P.d11 P.d12 H.d0 H.d1 H.d2
    let pht2 := fix16_dot3 P.d20 P.d21 P.d22 H.d0 H.d1 H.d2
    let k0 := fix16_div pht0 S
    let k1 := fix16_div pht1 S
    let k2 := fix16_div pht2 S
    -- x = x + K*y
    let x1 : mf16vec :=
      { d0 := fix16_add x.d0 (fix16_mul k0 y)
        d1 := fix16_add x.d1 (fix16_mul k1 y)
        d2 := fix16_add x.d2 (fix16_mul k2 y) }
    -- P = P - K*(H*P), upper triangle computed, lower triangle mirrored
    let q00 := fix16_sub P.d00 (fix16_mul k0 hp.d0)
    let q01 := fix16_sub P.d01 (fix16_mul k0 hp.d1)
    let q02 := fix16_sub P.d02 (fix16_mul k0 hp.d2)
    let q11 := fix16_sub P.d11 (fix16_mul k1 hp.d1)
    let q12 := fix16_sub P.d12 (fix16_mul k1 hp.d2)
    let q22 := fix16_sub P.d22 (fix16_mul k2 hp.d2)
    let P1 : mf16mat := ⟨q00, q01, q02, q01, q11, q12, q02, q12, q22⟩
    ({ kf with x := x1, P := P1 }, none)

/-- MEAS_COUNT of example_gravity.c. -/
def MEAS_COUNT : Nat := 15

/-- The real_distance measurement table of example_gravity.c. -/
def real_distance : List Int :=
  [F16 4905 1000, F16 1962 100, F16 44145 1000, F16 7848 100,
   F16 12263 100, F16 17658 100, F16 24035 100, F16 31392 100,
   F16 39731 100, F16 4905 10, F16 59351 100, F16 70632 100,
   F16 82894 100, F16 96138 100, F16 11036 10]

/-- The measurement_error noise table of example_gravity.c. -/
def measurement_error : List Int :=
  [F16 13442 100000, F16 45847 100000, F16 (-56471) 100000,
   F16 21554 100000, F16 79691 1000000, F16 (-32692) 100000,
   F16 (-1084) 10000, F16 85656 1000000, F16 8946 10000,
   F16 69236 100000, F16 (-33747) 100000, F16 75873 100000,
   F16 18135 100000, F16 (-15764) 1000000, F16 17869 100000]

/-- One iteration of the loop of kalman_gravity_demo: predict, write the
fresh measurement into z, correct. -/
def kalman_gravity_step (s : kalman_t × kalman_measurement_t) (meas : Int × Int) :
    kalman_t × kalman_measurement_t :=
  let kf := kalman_predict s.1
  let measurement := fix16_add meas.1 meas.2
  let kfm := { s.2 with z := measurement }
  ((kalman_correct kf kfm).1, kfm)

/-- One iteration of the loop of kalman_gravity_demo_lambda: tuned predict
with the given lambda, write the fresh measurement into z, correct. -/
def kalman_gravity_step_lambda (lambda : Int) (s : kalman_t × kalman_measurement_t)
    (meas : Int × Int) : kalman_t × kalman_measurement_t :=
  let kf := kalman_predict_tuned s.1 lambda
  let measurement := fix16_add meas.1 meas.2
  let kfm := { s.2 with z := measurement }
  ((kalman_correct kf kfm).1, kfm)

/-- The zero-initialised global kf of example_gravity.c (C static storage). -/
def kf_initial : kalman_t := { x := mf16vec_zero, A := mf16mat_zero, P := mf16mat_zero }

/-- The zero-initialised global kfm of example_gravity.c (C static storage). -/
def kfm_initial : kalman_measurement_t := { z := 0, H := mf16vec_zero, R := 0 }

/-- kalman_gravity_demo of example_gravity.c: initialize the filter, then run
MEAS_COUNT predict / measure / correct cycles over the synthetic data,
parameterised by the build's FIXMATRIX_MAX_SIZE. -/
def kalman_gravity_demo (maxSize : Nat) : kalman_t × kalman_measurement_t :=
  List.foldl kalman_gravity_step (kalman_gravity_init maxSize kf_initial kfm_initial)
    (List.zip real_distance measurement_error)

/-- The lambda constant of kalman_gravity_demo_lambda: F16(0.9). -/
def lambda_gravity : Int := F16 9 10

/-- kalman_gravity_demo_lambda of example_gravity.c: initialize the filter,
then run MEAS_COUNT tuned-predict / measure / correct cycles with
lambda = F16(0.9) over the same synthetic data. -/
def kalman_gravity_demo_lambda (maxSize : Nat) : kalman_t × kalman_measurement_t :=
  List.foldl (kalman_gravity_step_lambda lambda_gravity)
    (kalman_gravity_init maxSize kf_initial kfm_initial)
    (List.zip real_distance measurement_error)

/-- The filter structure as configured by kalman_gravity_init: state (0, 0, 6),
the free-fall transition matrix for T = 1 and the initial covariance
diag(0.5, 1, 1), all in raw Q16.16. -/
def gravity_kf0 : kalman_t :=
  ⟨⟨0, 0, 393216⟩, ⟨65536, 65536, 32768, 0, 65536, 65536, 0, 0, 65536⟩,
   ⟨32768, 0, 0, 0, 65536, 0, 0, 0, 65536⟩⟩

/-- The measurement structure as configured by kalman_gravity_init:
H = (1, 0, 0), R = 0.5, z = 0, all in raw Q16.16. -/
def gravity_kfm0 : kalman_measurement_t := ⟨0, ⟨65536, 0, 0⟩, 32768⟩

/-- Boolean form of 3x3 matrix symmetry, for scanning whole traces. -/
def mf16mat.is_symm (m : mf16mat) : Bool :=
  (m.d01 == m.d10) && (m.d02 == m.d20) && (m.d12 == m.d21)

/-- The system covariance P at every reachable state of the demo loops:
entry i holds (P after the predict of cycle i, P after the correct of
cycle i), starting from the configuration produced by kalman_gravity_init;
with useLambda the loop of kalman_gravity_demo_lambda is traced, otherwise
the loop of kalman_gravity_demo. -/
def kalman_gravity_P_states (useLambda : Bool) : List (mf16mat × mf16mat) :=
  (List.foldl
    (fun (acc : (kalman_t × kalman_measurement_t) × List (mf16mat × mf16mat)) meas =>
      let kfp := if useLambda then kalman_predict_tuned acc.1.1 lambda_gravity
                 else kalman_predict acc.1.1
      let kfm := { acc.1.2 with z := fix16_add meas.1 meas.2 }
      let kfc := (kalman_correct kfp kfm).1
      ((kfc, kfm), acc.2 ++ [(kfp.P, kfc.P)]))
    ((gravity_kf0, gravity_kfm0), [])
    (List.zip real_distance measurement_error)).2

lemma kalman_filter_initialise_initial (M n m : Nat) :
    (kalman_filter_initialise M n m kf_initial).1 = kf_initial := by
  unfold kalman_filter_initialise
  split <;> rfl

lemma kalman_measurement_initialise_initial (M n k : Nat) :
    (kalman_measurement_initialise M n k kfm_initial).1 = kfm_initial := by
  unfold kalman_measurement_initialise
  split <;> rfl

lemma kalman_gravity_init_eval (M : Nat) :
    kalman_gravity_init M kf_initial kfm_initial = (gravity_kf0, gravity_kfm0) := by
  unfold kalman_gravity_init
  rw [kalman_filter_initialise_initial, kalman_measurement_initialise_initial]
  rfl

/-- C4: after kalman_gravity_init (run under the discharged compile-time
dimension guard, FIXMATRIX_MAX_SIZE at least 3), the state vector x is
(0, 0, fix16 6) — position 0, velocity 0, gravity estimate 6 — and the
state-transition matrix A is the free-fall propagation matrix for T = 1:
rows (1, T, 0.5*T^2), (0, 1, T), (0, 0, 1) in fix16 representation. -/
theorem C4_init_state_and_transition (M : Nat) (_h : 3 ≤ M) :
    (kalman_gravity_init M kf_initial kfm_initial).1.x =
      ⟨0, 0, fix16_from_float 6 1⟩ ∧
    (kalman_gravity_init M kf_initial kfm_initial).1.A =
      ⟨fix16_one, fix16_one, fix16_mul (fix16_from_float 1 2) (fix16_sq fix16_one),
       0, fix16_one, fix16_one,
       0, 0, fix16_one⟩ := by
  rw [kalman_gravity_init_eval M]
  exact ⟨by decide, by decide⟩

/-- C4 witness: the initial state and transition at the concrete build bound
FIXMATRIX_MAX_SIZE = 8. -/
theorem C4_init_state_and_transition_witness :
    (kalman_gravity_init 8 kf_initial kfm_initial).1.x =
      ⟨0, 0, fix16_from_float 6 1⟩ ∧
    (kalman_gravity_init 8 kf_initial kfm_initial).1.A =
      ⟨fix16_one, fix16_one, fix16_mul (fix16_from_float 1 2) (fix16_sq fix16_one),
       0, fix16_one, fix16_one,
       0, 0, fix16_one⟩ :=
  C4_init_state_and_transition 8 (by omega)

/-- C5: after kalman_gravity_init (under the discharged dimension guard),
the measurement model observes position only with the specified noise:
H = (1, 0, 0), R = fix16 0.5, and P has diagonal (0.5, 1, 1) with zero
off-diagonal entries. -/
theorem C5_init_measurement_model (M : Nat) (_h : 3 ≤ M) :
    (kalman_gravity_init M kf_initial kfm_initial).2.H = ⟨fix16_one, 0, 0⟩ ∧
    (kalman_gravity_init M kf_initial kfm_initial).2.R = fix16_from_float 1 2 ∧
    (kalman_gravity_init M kf_initial kfm_initial).1.P =
      ⟨fix16_from_float 1 2, 0, 0, 0, fix16_one, 0, 0, 0, fix16_one⟩ := by
  rw [kalman_gravity_init_eval M]
  exact ⟨by decide, by decide, by decide⟩

/-- C5 witness: the measurement model at the concrete build bound
FIXMATRIX_MAX_SIZE = 8. -/
theorem C5_init_measurement_model_witness :
    (kalman_gravity_init 8 kf_initial kfm_initial).2.H = ⟨fix16_one, 0, 0⟩ ∧
    (kalman_gravity_init 8 kf_initial kfm_initial).2.R = fix16_from_float 1 2 ∧
    (kalman_gravity_init 8 kf_initial kfm_initial).1.P =
      ⟨fix16_from_float 1 2, 0, 0, 0, fix16_one, 0, 0, 0, fix16_one⟩ :=
  C5_init_measurement_model 8 (by omega)

/-- C6: initializing a filter or measurement instance with a state, input or
measurement count above the compile-time maximum fails with DimensionError
and performs no mutation (the caller's structure is returned untouched);
and with KALMAN_NUM_STATES = 3, KALMAN_NUM_INPUTS = 0,
KALMAN_NUM_MEASUREMENTS = 1 all at most the guard-checked
FIXMATRIX_MAX_SIZE, both initializations in this program succeed. -/
theorem C6_dimension_guard :
    (∀ M n m kf, M < n ∨ M < m →
      kalman_filter_initialise M n m kf = (kf, some kalman_error.DimensionError)) ∧
    (∀ M n k kfm, M < n ∨ M < k →
      kalman_measurement_initialise M n k kfm = (kfm, some kalman_error.DimensionError)) ∧
    (∀ M kf kfm, 3 ≤ M →
      (kalman_filter_initialise M KALMAN_NUM_STATES KALMAN_NUM_INPUTS kf).2 = none ∧
      (kalman_measurement_initialise M KALMAN_NUM_STATES KALMAN_NUM_MEASUREMENTS kfm).2 = none) := by
  refine ⟨?_, ?_, ?_⟩
  · intro M n m kf h
    unfold kalman_filter_initialise
    rw [if_pos h]
  · intro M n k kfm h
    unfold kalman_measurement_initialise
    rw [if_pos h]
  · intro M kf kfm h
    constructor
    · unfold kalman_filter_initialise KALMAN_NUM_STATES KALMAN_NUM_INPUTS
      rw [if_neg (by omega)]
    · unfold kalman_measurement_initialise KALMAN_NUM_STATES KALMAN_NUM_MEASUREMENTS
      rw [if_neg (by omega)]

/-- C6 witness: a filter and a measurement initialization rejected at
maximum size 2 with no mutation, and both of this program's initializations
succeeding at maximum size 8. -/
theorem C6_dimension_guard_witness :
    kalman_filter_initialise 2 3 0 kf_initial =
      (kf_initial, some kalman_error.DimensionError) ∧
    kalman_measurement_initialise 2 3 1 kfm_initial =
      (kfm_initial, some kalman_error.DimensionError) ∧
    (kalman_filter_initialise 8 KALMAN_NUM_STATES KALMAN_NUM_INPUTS kf_initial).2 = none ∧
    (kalman_measurement_initialise 8 KALMAN_NUM_STATES KALMAN_NUM_MEASUREMENTS kfm_initial).2 = none :=
  ⟨C6_dimension_guard.1 2 3 0 kf_initial (by omega),
   C6_dimension_guard.2.1 2 3 1 kfm_initial (by omega),
   (C6_dimension_guard.2.2 8 kf_initial kfm_initial (by omega)).1,
   (C6_dimension_guard.2.2 8 kf_initial kfm_initial (by omega)).2⟩

/-- C7: whenever the innovation covariance S = H*P*H^T + R is not invertible
within fixed-point precision (for the 1x1 S of this program: S computes to
zero), Correct fails with SingularInnovationError and leaves the whole
filter state — in particular x and P — unmodified. -/
theorem C7_singular_innovation (kf : kalman_t) (kfm : kalman_measurement_t)
    (h : kalman_S kf kfm = 0) :
    kalman_correct kf kfm = (kf, some kalman_error.SingularInnovationError) := by
  unfold kalman_correct
  simp [h]

/-- C7 witness: with the zeroed structures (H = 0, P = 0, R = 0) the
innovation covariance is the zero matrix and Correct fails, returning the
state untouched. -/
theorem C7_singular_innovation_witness :
    kalman_S kf_initial kfm_initial = 0 ∧
    kalman_correct kf_initial kfm_initial =
      (kf_initial, some kalman_error.SingularInnovationError) :=
  ⟨by decide, C7_singular_innovation kf_initial kfm_initial (by decide)⟩

/-- C8: every kalman_predict_tuned call of this program passes
lambda = F16(0.9), which lies strictly above 0 and at most fix16_one, so the
caller contract lambda in (0, 1] holds and the undefined-behavior branch for
out-of-range lambda is never reached: the lambda demo is exactly the fold of
a step whose predict is kalman_predict_tuned at lambda_gravity. -/
theorem C8_lambda_in_range (M : Nat) :
    0 < lambda_gravity ∧ lambda_gravity ≤ fix16_one ∧
    kalman_gravity_demo_lambda M =
      List.foldl (kalman_gravity_step_lambda lambda_gravity)
        (kalman_gravity_init M kf_initial kfm_initial)
        (List.zip real_distance measurement_error) ∧
    (∀ s meas, kalman_gravity_step_lambda lambda_gravity s meas =
      ((kalman_correct (kalman_predict_tuned s.1 lambda_gravity)
          { s.2 with z := fix16_add meas.1 meas.2 }).1,
        { s.2 with z := fix16_add meas.1 meas.2 })) :=
  ⟨by decide, by decide, rfl, fun s meas => rfl⟩

lemma kalman_predict_A (kf : kalman_t) : (kalman_predict kf).A = kf.A := rfl

lemma kalman_predict_tuned_A (kf : kalman_t) (lambda : Int) :
    (kalman_predict_tuned kf lambda).A = kf.A := rfl

lemma kalman_correct_A (kf : kalman_t) (kfm : kalman_measurement_t) :
    ((kalman_correct kf kfm).1).A = kf.A := by
  by_cases h : kalman_S kf kfm = 0 <;> simp [kalman_correct, h]

lemma kalman_gravity_step_A (s : kalman_t × kalman_measurement_t) (meas : Int × Int) :
    (kalman_gravity_step s meas).1.A = s.1.A := by
  show ((kalman_correct (kalman_predict s.1)
    { s.2 with z := fix16_add meas.1 meas.2 }).1).A = s.1.A
  rw [kalman_correct_A, kalman_predict_A]

lemma kalman_gravity_step_lambda_A (lambda : Int) (s : kalman_t × kalman_measurement_t)
    (meas : Int × Int) :
    (kalman_gravity_step_lambda lambda s meas).1.A = s.1.A := by
  show ((kalman_correct (kalman_predict_tuned s.1 lambda)
    { s.2 with z := fix16_add meas.1 meas.2 }).1).A = s.1.A
  rw [kalman_correct_A, kalman_predict_tuned_A]

lemma foldl_gravity_step_frame (l : List (Int × Int)) :
    ∀ s : kalman_t × kalman_measurement_t,
      (List.foldl kalman_gravity_step s l).1.A = s.1.A ∧
      (List.foldl kalman_gravity_step s l).2.H = s.2.H ∧
      (List.foldl kalman_gravity_step s l).2.R = s.2.R := by
  induction l with
  | nil => exact fun s => ⟨rfl, rfl, rfl⟩
  | cons a t ih =>
    intro s
    rw [List.foldl_cons]
    refine ⟨?_, ?_, ?_⟩
    · rw [(ih _).1, kalman_gravity_step_A]
    · rw [(ih _).2.1]; rfl
    · rw [(ih _).2.2]; rfl

lemma foldl_gravity_step_lambda_frame (lambda : Int) (l : List (Int × Int)) :
    ∀ s : kalman_t × kalman_measurement_t,
      (List.foldl (kalman_gravity_step_lambda lambda) s l).1.A = s.1.A ∧
      (List.foldl (kalman_gravity_step_lambda lambda) s l).2.H = s.2.H ∧
      (List.foldl (kalman_gravity_step_lambda lambda) s l).2.R = s.2.R := by
  induction l with
  | nil => exact fun s => ⟨rfl, rfl, rfl⟩
  | cons a t ih =>
    intro s
    rw [List.foldl_cons]
    refine ⟨?_, ?_, ?_⟩
    · rw [(ih _).1, kalman_gravity_step_lambda_A]
    · rw [(ih _).2.1]; rfl
    · rw [(ih _).2.2]; rfl

/-- C9: during both demo loops only z is written between cycles: predict,
tuned predict and correct never change A, the per-cycle step never changes H
or R, and hence across all 15 cycles of both demos A, H and R keep exactly
the values configured by kalman_gravity_init. -/
theorem C9_A_H_R_constant (M : Nat) :
    (∀ kf, (kalman_predict kf).A = kf.A) ∧
    (∀ kf lambda, (kalman_predict_tuned kf lambda).A = kf.A) ∧
    (∀ kf kfm, ((kalman_correct kf kfm).1).A = kf.A) ∧
    (∀ s meas, (kalman_gravity_step s meas).2.H = s.2.H ∧
      (kalman_gravity_step s meas).2.R = s.2.R) ∧
    (∀ lambda s meas, (kalman_gravity_step_lambda lambda s meas).2.H = s.2.H ∧
      (kalman_gravity_step_lambda lambda s meas).2.R = s.2.R) ∧
    ((kalman_gravity_demo M).1.A = (kalman_gravity_init M kf_initial kfm_initial).1.A ∧
     (kalman_gravity_demo M).2.H = (kalman_gravity_init M kf_initial kfm_initial).2.H ∧
     (kalman_gravity_demo M).2.R = (kalman_gravity_init M kf_initial kfm_initial).2.R) ∧
    ((kalman_gravity_demo_lambda M).1.A = (kalman_gravity_init M kf_initial kfm_initial).1.A ∧
     (kalman_gravity_demo_lambda M).2.H = (kalman_gravity_init M kf_initial kfm_initial).2.H ∧
     (kalman_gravity_demo_lambda M).2.R = (kalman_gravity_init M kf_initial kfm_initial).2.R) :=
  ⟨kalman_predict_A, kalman_predict_tuned_A, kalman_correct_A,
   fun _ _ => ⟨rfl, rfl⟩, fun _ _ _ => ⟨rfl, rfl⟩,
   foldl_gravity_step_frame (List.zip real_distance measurement_error)
     (kalman_gravity_init M kf_initial kfm_initial),
   foldl_gravity_step_lambda_frame lambda_gravity
     (List.zip real_distance measurement_error)
     (kalman_gravity_init M kf_initial kfm_initial)⟩

/-- C3: each demo is exactly the fold, over the zipped measurement tables, of
one cycle doing: predict (plain or tuned), then write the fresh measurement
into z, then correct; the tables supply exactly MEAS_COUNT = 15 cycles; and
a cycle's outcome is independent of whatever value z held before it was
overwritten (only the most recent z is consulted). -/
theorem C3_cycle_order (M : Nat) :
    kalman_gravity_demo M =
      List.foldl
        (fun s meas =>
          ((kalman_correct (kalman_predict s.1)
              { s.2 with z := fix16_add meas.1 meas.2 }).1,
            { s.2 with z := fix16_add meas.1 meas.2 }))
        (kalman_gravity_init M kf_initial kfm_initial)
        (List.zip real_distance measurement_error) ∧
    kalman_gravity_demo_lambda M =
      List.foldl
        (fun s meas =>
          ((kalman_correct (kalman_predict_tuned s.1 lambda_gravity)
              { s.2 with z := fix16_add meas.1 meas.2 }).1,
            { s.2 with z := fix16_add meas.1 meas.2 }))
        (kalman_gravity_init M kf_initial kfm_initial)
        (List.zip real_distance measurement_error) ∧
    (List.zip real_distance measurement_error).length = MEAS_COUNT ∧
    MEAS_COUNT = 15 ∧
    (∀ kf kfm zprev meas,
      kalman_gravity_step (kf, { kfm with z := zprev }) meas =
        kalman_gravity_step (kf, kfm) meas) ∧
    (∀ lambda kf kfm zprev meas,
      kalman_gravity_step_lambda lambda (kf, { kfm with z := zprev }) meas =
        kalman_gravity_step_lambda lambda (kf, kfm) meas) :=
  ⟨rfl, rfl, by decide, rfl,
   fun _ _ _ _ => rfl, fun _ _ _ _ _ => rfl⟩

/-- C1: running kalman_gravity_demo (15 predict/correct cycles over the
synthetic free-fall measurements real_distance + measurement_error, from the
initial gravity estimate 6) yields a final gravity estimate, read from
x[2][0], whose real value x[2][0]/2^16 lies strictly between 9.7 and 10.0.
Since the raw estimate is an integer and neither 9.7*2^16 nor 10*2^16 can be
attained by it here, this rational comparison coincides with the float
comparison of the C assert. -/
theorem C1_gravity_demo_estimate_in_range (M : Nat) (_h : 3 ≤ M) :
    (97/10 : ℚ) < ((kalman_gravity_demo M).1.x.d2 : ℚ) / 65536 ∧
    ((kalman_gravity_demo M).1.x.d2 : ℚ) / 65536 < 10 := by
  unfold kalman_gravity_demo
  rw [kalman_gravity_init_eval M]
  have hg : (List.foldl kalman_gravity_step (gravity_kf0, gravity_kfm0)
      (List.zip real_distance measurement_error)).1.x.d2 = 642654 := by decide
  rw [hg]
  norm_num

/-- C1 witness: the convergence bound at the concrete build bound
FIXMATRIX_MAX_SIZE = 8. -/
theorem C1_gravity_demo_estimate_in_range_witness :
    (97/10 : ℚ) < ((kalman_gravity_demo 8).1.x.d2 : ℚ) / 65536 ∧
    ((kalman_gravity_demo 8).1.x.d2 : ℚ) / 65536 < 10 :=
  C1_gravity_demo_estimate_in_range 8 (by omega)

/-- C10: the fading-memory demo converges on the same data:
kalman_gravity_demo_lambda (15 tuned-predict cycles at lambda = F16(0.9)
followed by correct, over the same measurements) also ends with a gravity
estimate strictly between 9.7 and 10.0. -/
theorem C10_gravity_demo_lambda_estimate_in_range (M : Nat) (_h : 3 ≤ M) :
    (97/10 : ℚ) < ((kalman_gravity_demo_lambda M).1.x.d2 : ℚ) / 65536 ∧
    ((kalman_gravity_demo_lambda M).1.x.d2 : ℚ) / 65536 < 10 := by
  unfold kalman_gravity_demo_lambda
  rw [kalman_gravity_init_eval M]
  have hg : (List.foldl (kalman_gravity_step_lambda lambda_gravity)
      (gravity_kf0, gravity_kfm0)
      (List.zip real_distance measurement_error)).1.x.d2 = 642053 := by decide
  rw [hg]
  norm_num

/-- C10 witness: the fading-memory convergence bound at the concrete build
bound FIXMATRIX_MAX_SIZE = 8. -/
theorem C10_gravity_demo_lambda_estimate_in_range_witness :
    (97/10 : ℚ) < ((kalman_gravity_demo_lambda 8).1.x.d2 : ℚ) / 65536 ∧
    ((kalman_gravity_demo_lambda 8).1.x.d2 : ℚ) / 65536 < 10 :=
  C10_gravity_demo_lambda_estimate_in_range 8 (by omega)

/-- C2 counterexample: symmetry does NOT hold after every predict call: the
covariance reached right after the predict of the 4th cycle of
kalman_gravity_demo differs between entries (0,1) and (1,0) by one raw
rounding unit (112181 versus 112180), refuting the claim that
P[i][j] = P[j][i] for all reachable states after every predict call. -/
theorem C2_symmetry_counterexample :
    ¬ (((kalman_gravity_P_states false).getD 3 (mf16mat_zero, mf16mat_zero)).1).symmetric := by
  decide

/-- C2 (amended): P is symmetric after kalman_gravity_init (every write goes
through the mirrored matrix_set_symmetric), and a correct call either
re-enforces symmetry (its covariance is written upper-triangle-first with
the lower triangle mirrored) or fails leaving the state unchanged; in both
demo traces P is symmetric after every correct call — but a predict call can
leave P asymmetric by one fixed-point rounding unit, so symmetry holds after
init and after every correct, not after every predict. -/
theorem C2_symmetry_after_init_and_correct :
    (∀ M, (kalman_gravity_init M kf_initial kfm_initial).1.P.symmetric) ∧
    (∀ kf kfm, ((kalman_correct kf kfm).1).P.symmetric ∨ (kalman_correct kf kfm).1 = kf) ∧
    ((kalman_gravity_P_states false).map Prod.snd).all mf16mat.is_symm = true ∧
    ((kalman_gravity_P_states true).map Prod.snd).all mf16mat.is_symm = true ∧
    (kalman_gravity_P_states false).length = MEAS_COUNT ∧
    (kalman_gravity_P_states true).length = MEAS_COUNT ∧
    ((kalman_gravity_P_states false).map Prod.snd).getLast? =
      some (kalman_gravity_demo 3).1.P ∧
    ((kalman_gravity_P_states true).map Prod.snd).getLast? =
      some (kalman_gravity_demo_lambda 3).1.P := by
  refine ⟨?_, ?_, by decide, by decide, by decide, by decide, by decide, by decide⟩
  · intro M
    rw [kalman_gravity_init_eval M]
    decide
  · intro kf kfm
    by_cases h : kalman_S kf kfm = 0
    · right
      simp [kalman_correct, h]
    · left
      simp [kalman_correct, h]
      exact ⟨rfl, rfl, rfl⟩
